import Mathlib

/-!
# Verification of the Volume/Claim reconciliation controller

This development embeds the storage controller (the `SyncPVC` and `syncPV`
reconcilers together with the legacy placeholder sweep `upgradePVFrom12`)
as pure Lean functions.  A reconciliation pass is modelled as a function
from the object snapshot, an environment (the object store reads and plugin
lookups), and a commit-success oracle `ok : Nat → Bool` (the i-th write
attempt of the pass succeeds iff `ok i`) to the ordered list of observable
actions the pass performs: commit attempts (with the exact object written
and the success flag), object deletions, plugin resolutions, emitted user
events and error logs.  Early returns on failed commits are reflected by
truncation of the action list.
-/

/-- Marker on Claims: the claim has completed binding at least once. -/
def annWasEverBound : String := "pv.kubernetes.io/bound-completed"

/-- Marker on Volumes and Claims: the binding was installed by the controller. -/
def annBoundByController : String := "pv.kubernetes.io/bound-by-controller"

/-- Marker on Claims: dynamic provisioning with a storage class is requested. -/
def annClass : String := "volume.alpha.kubernetes.io/storage-class"

/-- Legacy marker identifying placeholder Volumes from the 1.2 provisioner. -/
def annPlaceholderProvisioningRequired : String :=
  "volume.experimental.kubernetes.io/provisioning-required"

/-- Value of the legacy marker meaning provisioning already completed. -/
def provisioningCompleted : String :=
  "volume.experimental.kubernetes.io/provisioning-completed"

/-- Object phases (`pv.Status.Phase` / `pvc.Status.Phase`). -/
inductive Phase where
  | Pending
  | Available
  | Bound
  | Released
  | Lost
  | Failed
deriving DecidableEq, Repr

/-- A Volume's claim pointer (`pv.Spec.ClaimPtr`): a Claim name plus a UID,
where UID `0` means the UID is absent (the code tests `ClaimPtr.UID == 0`). -/
structure ClaimRef where
  name : String
  uid : Nat
deriving DecidableEq, Repr

/-- A Volume object.  Annotations are an association list mirroring the Go
string map. -/
structure PV where
  name : String
  uid : Nat
  claimPtr : Option ClaimRef
  phase : Phase
  reclaimPolicy : String
  anns : List (String × String)
deriving DecidableEq, Repr

/-- A Claim object.  `volumePtr` carries the name of the requested Volume
(`pvc.Spec.VolumePtr`), or `none`. -/
structure PVClaim where
  name : String
  uid : Nat
  volumePtr : Option String
  phase : Phase
  anns : List (String × String)
deriving DecidableEq, Repr

/-- Lookup in an annotation map (first matching key). -/
def lookupAnn : List (String × String) → String → Option String
  | [], _ => none
  | (k, v) :: rest, key => if k = key then some v else lookupAnn rest key

/-- `hasAnnotation` from the source: key present in the map. -/
def hasAnn (anns : List (String × String)) (key : String) : Bool :=
  (lookupAnn anns key).isSome

/-- `setAnnotation` from the source: Go map assignment of the value "yes". -/
def setAnn : List (String × String) → String → List (String × String)
  | [], key => [(key, "yes")]
  | (k, v) :: rest, key =>
      if k = key then (key, "yes") :: rest else (k, v) :: setAnn rest key

/-- Go map indexing, which yields the empty string for a missing key. -/
def annValue (anns : List (String × String)) (key : String) : String :=
  (lookupAnn anns key).getD ""

/-- Observable actions of one reconciliation pass, in program order. -/
inductive Ev where
  | commitPV (v : PV) (ok : Bool)
  | commitPVStatus (v : PV) (ok : Bool)
  | commitPVC (c : PVClaim) (ok : Bool)
  | commitPVCStatus (c : PVClaim) (ok : Bool)
  | deletePV (v : PV) (ok : Bool)
  | findProvisioner (found : Bool)
  | findDeleter (found : Bool)
  | findRecycler (found : Bool)
  | emitEvent (msg : String)
  | logError (msg : String)
deriving DecidableEq, Repr

/-- The environment of a pass: object-store reads and plugin resolution. -/
structure Env where
  getPV : String → Option PV
  getPVC : String → Option PVClaim
  findAcceptablePV : PVClaim → Option PV
  provisionerFound : Bool
  deleterFound : PV → Bool
  recyclerFound : PV → Bool

/-- `GetPV` applied to a Claim's volume pointer: a nil pointer finds nothing. -/
def getPVOpt (env : Env) : Option String → Option PV
  | none => none
  | some n => env.getPV n

/-- Event text from the broken-link repair branch of `SyncPVC`. -/
def fixMsg : String :=
  "PVClaim is bound to PV, but not vice-versa: attempting to fix it"

/-- `isPlaceholderPV` from the source: the legacy provisioning-required
annotation is present and its value differs from `provisioningCompleted`. -/
def isPlaceholderPV (pv : PV) : Bool :=
  hasAnn pv.anns annPlaceholderProvisioningRequired &&
    annValue pv.anns annPlaceholderProvisioningRequired != provisioningCompleted

/-- `upgradePVFrom12` from the source.  Returns `(deleted, errored)` together
with the actions performed (one `DeletePV` attempt for a placeholder). -/
def upgradePVFrom12 (ok : Nat → Bool) (pv : PV) : (Bool × Bool) × List Ev :=
  if isPlaceholderPV pv then
    if ok 0 then ((true, false), [Ev.deletePV pv true])
    else ((false, true), [Ev.deletePV pv false])
  else ((false, false), [])

/-- The tail of `SyncPVC`'s was-ever-bound branch, from `pv = GetPV(...)` on.
`i` is the number of commit attempts already made in this pass (the
null-volume-pointer prologue falls through into this code after its own
commit), and `pvc` is the current local value of the claim (including the
`Lost` phase written by that prologue). -/
def syncPVCBound (ok : Nat → Bool) (i : Nat) (env : Env) (pvc : PVClaim) : List Ev :=
  match getPVOpt env pvc.volumePtr with
  | none =>
      -- Claim is bound to a non-existing volume.
      [Ev.commitPVCStatus { pvc with phase := Phase.Lost } (ok i)]
  | some pv =>
      match pv.claimPtr with
      | none =>
          -- Claim is bound but volume has come unbound; attempt to fix it.
          let pv1 := { pv with claimPtr := some ⟨pvc.name, pvc.uid⟩ }
          Ev.emitEvent fixMsg ::
          Ev.commitPV pv1 (ok i) ::
          if ok i then
            [Ev.commitPVStatus { pv1 with phase := Phase.Bound } (ok (i + 1))]
          else []
      | some cp =>
          if cp.uid = pvc.uid then
            -- All is well; assert phase Bound only where the stored phase differs.
            if pv.phase ≠ Phase.Bound then
              Ev.commitPVStatus { pv with phase := Phase.Bound } (ok i) ::
              if ok i then
                if pvc.phase ≠ Phase.Bound then
                  [Ev.commitPVCStatus { pvc with phase := Phase.Bound } (ok (i + 1))]
                else []
              else []
            else
              if pvc.phase ≠ Phase.Bound then
                [Ev.commitPVCStatus { pvc with phase := Phase.Bound } (ok i)]
              else []
          else
            -- Volume has a different claimant; the claim is Lost.
            [Ev.commitPVCStatus { pvc with phase := Phase.Lost } (ok i)]

/-- `SyncPVC` from the source, as the ordered list of actions of one pass. -/
def SyncPVC (ok : Nat → Bool) (env : Env) (pvc : PVClaim) : List Ev :=
  if ¬ hasAnn pvc.anns annWasEverBound then
    -- A new PVC that has not completed binding.
    match pvc.volumePtr with
    | none =>
        match env.findAcceptablePV pvc with
        | none =>
            if hasAnn pvc.anns annClass then
              [Ev.findProvisioner env.provisionerFound]
            else []
        | some pv =>
            let pv1 :=
              if pv.claimPtr = none then
                { pv with claimPtr := some ⟨pvc.name, pvc.uid⟩,
                          anns := setAnn pv.anns annBoundByController }
              else pv
            Ev.commitPV pv1 (ok 0) ::
            if ok 0 then
              Ev.commitPVStatus { pv1 with phase := Phase.Bound } (ok 1) ::
              if ok 1 then
                let c1 := { pvc with
                              volumePtr := some pv.name,
                              anns := setAnn (setAnn pvc.anns annWasEverBound)
                                        annBoundByController }
                Ev.commitPVC c1 (ok 2) ::
                if ok 2 then
                  [Ev.commitPVCStatus { c1 with phase := Phase.Bound } (ok 3)]
                else []
              else []
            else []
    | some n =>
        match env.getPV n with
        | none => []
        | some pv =>
            match pv.claimPtr with
            | none =>
                -- User asked for a PV that is not claimed.
                let pv1 := { pv with claimPtr := some ⟨pvc.name, pvc.uid⟩,
                                     anns := setAnn pv.anns annBoundByController }
                Ev.commitPV pv1 (ok 0) ::
                if ok 0 then
                  Ev.commitPVStatus { pv1 with phase := Phase.Bound } (ok 1) ::
                  if ok 1 then
                    let c1 := { pvc with anns := setAnn pvc.anns annWasEverBound }
                    Ev.commitPVC c1 (ok 2) ::
                    if ok 2 then
                      [Ev.commitPVCStatus { c1 with phase := Phase.Bound } (ok 3)]
                    else []
                  else []
                else []
            | some cp =>
                if cp.name = pvc.name then
                  -- User asked for a PV that is claimed by this PVC; write the UID.
                  let pv1 := { pv with claimPtr := some { cp with uid := pvc.uid } }
                  Ev.commitPV pv1 (ok 0) ::
                  if ok 0 then
                    Ev.commitPVStatus { pv1 with phase := Phase.Bound } (ok 1) ::
                    if ok 1 then
                      let c1 := { pvc with anns := setAnn pvc.anns annWasEverBound }
                      Ev.commitPVC c1 (ok 2) ::
                      if ok 2 then
                        [Ev.commitPVCStatus { c1 with phase := Phase.Bound } (ok 3)]
                      else []
                    else []
                  else []
                else
                  -- User asked for a PV that is claimed by someone else.
                  if ¬ hasAnn pvc.anns annBoundByController then []
                  else [Ev.logError "IMPOSSIBURU!"]
  else
    -- This PVC has previously been bound.
    match pvc.volumePtr with
    | none =>
        -- Claim was bound before but not any more: Lost.  On commit success
        -- the code falls through into the common tail with the mutated claim.
        let c1 := { pvc with phase := Phase.Lost }
        Ev.commitPVCStatus c1 (ok 0) ::
        if ok 0 then syncPVCBound ok 1 env c1 else []
    | some _ => syncPVCBound ok 0 env pvc

/-- `syncPV` from the source, as the ordered list of actions of one pass. -/
def syncPV (ok : Nat → Bool) (env : Env) (pv : PV) : List Ev :=
  let up := upgradePVFrom12 ok pv
  if up.1.2 then
    -- Placeholder PV that could not be deleted; try again next time.
    up.2
  else if up.1.1 then
    -- Placeholder PV was deleted; nothing else to do.
    up.2
  else
    match pv.claimPtr with
    | none =>
        -- Volume is unused.
        [Ev.commitPVStatus { pv with phase := Phase.Available } (ok 0)]
    | some cp =>
        if cp.uid = 0 then
          -- Reserved for a PVC not yet bound; the PVC sync will handle it.
          []
        else
          let pvc1 :=
            match env.getPVC cp.name with
            | none => none
            | some c => if c.uid ≠ cp.uid then none else some c
          match pvc1 with
          | none =>
              -- The bound claim is gone; release, then dispatch on policy.
              let pvR := { pv with phase := Phase.Released }
              Ev.commitPVStatus pvR (ok 0) ::
              if ok 0 then
                if pv.reclaimPolicy = "Retain" then []
                else if pv.reclaimPolicy = "Delete" then
                  [Ev.findDeleter (env.deleterFound pvR)]
                else if pv.reclaimPolicy = "Recycle" then
                  [Ev.findRecycler (env.recyclerFound pvR)]
                else []
              else []
          | some c =>
              match c.volumePtr with
              | none =>
                  -- Binding not completed from the claim side; NOP.
                  []
              | some m =>
                  if m = pv.name then
                    -- Volume is bound to a claim properly.
                    if pv.phase ≠ Phase.Bound then
                      [Ev.commitPVStatus { pv with phase := Phase.Bound } (ok 0)]
                    else []
                  else
                    -- Claim is bound elsewhere.
                    if hasAnn pv.anns annBoundByController then
                      let pv1 := { pv with claimPtr := none }
                      Ev.commitPV pv1 (ok 0) ::
                      if ok 0 then
                        [Ev.commitPVStatus { pv1 with phase := Phase.Available } (ok 1)]
                      else []
                    else
                      [Ev.commitPVStatus { pv with phase := Phase.Available } (ok 0)]

/-- A store of Volumes and Claims, for executing successive passes. -/
structure Store where
  pvs : List PV
  pvcs : List PVClaim
deriving DecidableEq, Repr

/-- Look a Volume up by name. -/
def findPV (s : Store) (n : String) : Option PV :=
  s.pvs.find? fun v => v.name == n

/-- Look a Claim up by name. -/
def findPVC (s : Store) (n : String) : Option PVClaim :=
  s.pvcs.find? fun c => c.name == n

/-- The environment a store presents to the reconcilers (no matcher hits,
no plugins configured; enough for the scenarios exercised here). -/
def envOf (s : Store) : Env where
  getPV := findPV s
  getPVC := findPVC s
  findAcceptablePV := fun _ => none
  provisionerFound := false
  deleterFound := fun _ => false
  recyclerFound := fun _ => false

/-- Apply one successful action to the store: a spec commit replaces the
spec fields (pointers, policy, annotations) of the object of that name, a
status commit replaces its phase, a deletion removes it.  Failed attempts
and non-write actions change nothing. -/
def applyEv (s : Store) : Ev → Store
  | Ev.commitPV v true =>
      { s with pvs := s.pvs.map fun w =>
          if w.name = v.name then
            { w with claimPtr := v.claimPtr, reclaimPolicy := v.reclaimPolicy,
                     anns := v.anns }
          else w }
  | Ev.commitPVStatus v true =>
      { s with pvs := s.pvs.map fun w =>
          if w.name = v.name then { w with phase := v.phase } else w }
  | Ev.commitPVC c true =>
      { s with pvcs := s.pvcs.map fun d =>
          if d.name = c.name then
            { d with volumePtr := c.volumePtr, anns := c.anns }
          else d }
  | Ev.commitPVCStatus c true =>
      { s with pvcs := s.pvcs.map fun d =>
          if d.name = c.name then { d with phase := c.phase } else d }
  | Ev.deletePV v true =>
      { s with pvs := s.pvs.filter fun w => w.name ≠ v.name }
  | _ => s

/-- Apply the actions of a pass to the store, in order. -/
def applyEvs (s : Store) (evs : List Ev) : Store :=
  evs.foldl applyEv s

/-- The commit oracle under which every write succeeds. -/
def allOk : Nat → Bool := fun _ => true

/-- An environment with an empty store. -/
def env0 : Env := envOf ⟨[], []⟩

theorem lookupAnn_setAnn_self (l : List (String × String)) (k : String) :
    lookupAnn (setAnn l k) k = some "yes" := by
  induction l with
  | nil => simp [setAnn, lookupAnn]
  | cons p rest ih =>
      obtain ⟨a, b⟩ := p
      by_cases hak : a = k
      · simp [setAnn, hak, lookupAnn]
      · simp [setAnn, hak, lookupAnn, ih]

theorem lookupAnn_setAnn_ne (l : List (String × String)) (k k2 : String)
    (h : k2 ≠ k) :
    lookupAnn (setAnn l k) k2 = lookupAnn l k2 := by
  have hk : ¬ (k = k2) := fun hh => h hh.symm
  induction l with
  | nil => simp [setAnn, lookupAnn, hk]
  | cons p rest ih =>
      obtain ⟨a, b⟩ := p
      by_cases hak : a = k
      · subst hak
        simp [setAnn, lookupAnn, hk]
      · by_cases hak2 : a = k2
        · simp [setAnn, hak, lookupAnn, hak2, h]
        · simp [setAnn, hak, lookupAnn, hak2, ih]

theorem hasAnn_setAnn_self (l : List (String × String)) (k : String) :
    hasAnn (setAnn l k) k = true := by
  simp [hasAnn, lookupAnn_setAnn_self]

theorem hasAnn_setAnn_ne (l : List (String × String)) (k k2 : String)
    (h : k2 ≠ k) :
    hasAnn (setAnn l k) k2 = hasAnn l k2 := by
  simp [hasAnn, lookupAnn_setAnn_ne l k k2 h]

/-- C7: for a Volume whose claim pointer is present but carries no UID
(UID zero), `syncPV` returns without performing any commit, deletion,
plugin resolution, event or log: its action list is empty, so every other
object is left unchanged. -/
theorem C7_reservation_no_writes (ok : Nat → Bool) (env : Env) (pv : PV)
    (cp : ClaimRef)
    (hph : isPlaceholderPV pv = false)
    (hcp : pv.claimPtr = some cp)
    (huid : cp.uid = 0) :
    syncPV ok env pv = [] := by
  simp [syncPV, upgradePVFrom12, hph, hcp, huid]

/-- A reservation-only Volume: claim pointer present, UID absent. -/
def resVol : PV :=
  { name := "v9", uid := 2, claimPtr := some ⟨"c9", 0⟩,
    phase := Phase.Available, reclaimPolicy := "Retain", anns := [] }

/-- C7 witness: a concrete reservation-only Volume produces an empty
action list. -/
theorem C7_reservation_no_writes_witness :
    syncPV allOk env0 resVol = [] :=
  C7_reservation_no_writes allOk env0 resVol ⟨"c9", 0⟩ (by decide) rfl rfl

/-- C8: a Volume is a placeholder exactly when it carries the
provisioning-required annotation with a value different from the
provisioning-completed constant; `syncPV` runs the placeholder sweep before
anything else, and on a placeholder its whole action list is the single
deletion attempt — whether the deletion succeeds or errors, nothing else
happens. -/
theorem C8_legacy_sweep (pv : PV) :
    (isPlaceholderPV pv = true ↔
       ∃ v, lookupAnn pv.anns annPlaceholderProvisioningRequired = some v ∧
            v ≠ provisioningCompleted) ∧
    (isPlaceholderPV pv = true →
       ∀ (ok : Nat → Bool) (env : Env),
         syncPV ok env pv = [Ev.deletePV pv (ok 0)]) := by
  constructor
  · unfold isPlaceholderPV hasAnn annValue
    cases hl : lookupAnn pv.anns annPlaceholderProvisioningRequired with
    | none => simp
    | some v => simp [hl]
  · intro hp ok env
    by_cases h0 : ok 0 = true
    · simp [syncPV, upgradePVFrom12, hp, h0]
    · rw [Bool.not_eq_true] at h0
      simp [syncPV, upgradePVFrom12, hp, h0]

/-- A legacy placeholder Volume. -/
def phVol : PV :=
  { name := "ph", uid := 8, claimPtr := none, phase := Phase.Pending,
    reclaimPolicy := "Retain",
    anns := [(annPlaceholderProvisioningRequired, "pending")] }

/-- C8 witness: a concrete placeholder Volume (annotation present with a
non-completed value) satisfies both halves. -/
theorem C8_legacy_sweep_witness :
    (∃ v, lookupAnn phVol.anns annPlaceholderProvisioningRequired = some v ∧
          v ≠ provisioningCompleted) ∧
    syncPV allOk env0 phVol = [Ev.deletePV phVol true] :=
  ⟨(C8_legacy_sweep phVol).1.mp (by decide),
   (C8_legacy_sweep phVol).2 (by decide) allOk env0⟩

/-- C10: for a Claim with was-ever-bound set and a null volume pointer,
once the `Lost` status commit succeeds `SyncPVC` does not return: it falls
through, fails to fetch a Volume by the null pointer, and attempts a second
`Lost` status commit — two status commits per pass, even when the stored
phase is already `Lost`. -/
theorem C10_double_lost_commit (ok : Nat → Bool) (env : Env) (pvc : PVClaim)
    (hwab : hasAnn pvc.anns annWasEverBound = true)
    (hvp : pvc.volumePtr = none)
    (h0 : ok 0 = true) :
    SyncPVC ok env pvc =
      [Ev.commitPVCStatus { pvc with phase := Phase.Lost } true,
       Ev.commitPVCStatus { pvc with phase := Phase.Lost } (ok 1)] := by
  simp [SyncPVC, syncPVCBound, getPVOpt, hwab, hvp, h0]

/-- An established Claim that has lost its volume pointer and whose stored
phase is already `Lost`. -/
def lostNoPtrClaim : PVClaim :=
  { name := "cl", uid := 6, volumePtr := none, phase := Phase.Lost,
    anns := [(annWasEverBound, "yes")] }

/-- C10 witness: a concrete Claim whose stored phase is already `Lost`
still gets two `Lost` status commits in one pass. -/
theorem C10_double_lost_commit_witness :
    SyncPVC allOk env0 lostNoPtrClaim =
      [Ev.commitPVCStatus lostNoPtrClaim true,
       Ev.commitPVCStatus lostNoPtrClaim true] :=
  C10_double_lost_commit allOk env0 lostNoPtrClaim (by decide) rfl rfl

theorem syncPV_released_branch (ok : Nat → Bool) (env : Env) (pv : PV)
    (cp : ClaimRef)
    (hph : isPlaceholderPV pv = false)
    (hcp : pv.claimPtr = some cp)
    (hu : cp.uid ≠ 0)
    (hgone : ∀ c, env.getPVC cp.name = some c → c.uid ≠ cp.uid) :
    syncPV ok env pv =
      Ev.commitPVStatus { pv with phase := Phase.Released } (ok 0) ::
      (if ok 0 then
        (if pv.reclaimPolicy = "Retain" then []
         else if pv.reclaimPolicy = "Delete" then
           [Ev.findDeleter (env.deleterFound { pv with phase := Phase.Released })]
         else if pv.reclaimPolicy = "Recycle" then
           [Ev.findRecycler (env.recyclerFound { pv with phase := Phase.Released })]
         else [])
       else []) := by
  cases hc : env.getPVC cp.name with
  | none => simp [syncPV, upgradePVFrom12, hph, hcp, hu, hc]
  | some c => simp [syncPV, upgradePVFrom12, hph, hcp, hu, hc, hgone c hc]

/-- C3: for a Volume whose strong claim pointer references an absent or
UID-mismatched Claim, `syncPV` performs the `Released` status commit first;
if that commit fails it returns without dispatching on the reclaim policy
(no plugin resolution appears), and under policy `Retain` the `Released`
commit is the only action of the pass. -/
theorem C3_release_then_dispatch (ok : Nat → Bool) (env : Env) (pv : PV)
    (cp : ClaimRef)
    (hph : isPlaceholderPV pv = false)
    (hcp : pv.claimPtr = some cp)
    (hu : cp.uid ≠ 0)
    (hgone : ∀ c, env.getPVC cp.name = some c → c.uid ≠ cp.uid) :
    (syncPV ok env pv).head? =
        some (Ev.commitPVStatus { pv with phase := Phase.Released } (ok 0)) ∧
    (ok 0 = false →
        syncPV ok env pv =
          [Ev.commitPVStatus { pv with phase := Phase.Released } false]) ∧
    (ok 0 = true → pv.reclaimPolicy = "Retain" →
        syncPV ok env pv =
          [Ev.commitPVStatus { pv with phase := Phase.Released } true]) := by
  have hb := syncPV_released_branch ok env pv cp hph hcp hu hgone
  refine ⟨by rw [hb]; rfl, fun h0 => by rw [hb, h0]; rfl,
          fun h0 hr => by rw [hb, h0, hr]; rfl⟩

/-- A Volume strongly bound to a Claim name that no longer resolves. -/
def orphanVol : PV :=
  { name := "vo", uid := 11, claimPtr := some ⟨"gone", 5⟩,
    phase := Phase.Bound, reclaimPolicy := "Retain", anns := [] }

/-- C3 witness: on a concrete Retain Volume whose Claim is absent, the pass
is exactly the `Released` status commit. -/
theorem C3_release_then_dispatch_witness :
    (syncPV allOk env0 orphanVol).head? =
        some (Ev.commitPVStatus { orphanVol with phase := Phase.Released } true) ∧
    (true = false →
        syncPV allOk env0 orphanVol =
          [Ev.commitPVStatus { orphanVol with phase := Phase.Released } false]) ∧
    (true = true → orphanVol.reclaimPolicy = "Retain" →
        syncPV allOk env0 orphanVol =
          [Ev.commitPVStatus { orphanVol with phase := Phase.Released } true]) :=
  C3_release_then_dispatch allOk env0 orphanVol ⟨"gone", 5⟩
    (by decide) rfl (by decide) (fun c hc => by simp [env0, envOf, findPVC] at hc)

/-- C9: for a Volume whose claim pointer carries a UID, when the Claim by
that name is absent, or present with a different UID (name recycled),
`syncPV` takes the released path — its first action is the `Released`
status commit — and it raises no error (no error log appears in the pass). -/
theorem C9_gone_claim_is_observation (ok : Nat → Bool) (env : Env) (pv : PV)
    (cp : ClaimRef)
    (hph : isPlaceholderPV pv = false)
    (hcp : pv.claimPtr = some cp)
    (hu : cp.uid ≠ 0)
    (hgone : env.getPVC cp.name = none ∨
             ∃ c, env.getPVC cp.name = some c ∧ c.uid ≠ cp.uid) :
    (syncPV ok env pv).head? =
        some (Ev.commitPVStatus { pv with phase := Phase.Released } (ok 0)) ∧
    ∀ msg, Ev.logError msg ∉ syncPV ok env pv := by
  have hgone2 : ∀ c, env.getPVC cp.name = some c → c.uid ≠ cp.uid := by
    intro c hc
    rcases hgone with h | ⟨d, hd, hdu⟩
    · rw [h] at hc
      exact Option.noConfusion hc
    · rw [hd] at hc
      cases hc
      exact hdu
  have hb := syncPV_released_branch ok env pv cp hph hcp hu hgone2
  constructor
  · rw [hb]
    rfl
  · intro msg
    rw [hb]
    split_ifs <;> simp

/-- The Volume spec written in the match-and-bind path of `SyncPVC`: the
claim pointer and the bound-by-controller marker are installed only when
the matched Volume was unclaimed. -/
def bindPV1 (pvc : PVClaim) (pv : PV) : PV :=
  if pv.claimPtr = none then
    { pv with claimPtr := some ⟨pvc.name, pvc.uid⟩,
              anns := setAnn pv.anns annBoundByController }
  else pv

/-- The Claim spec written in the match-and-bind path of `SyncPVC`:
volume pointer, was-ever-bound and bound-by-controller. -/
def bindC1 (pvc : PVClaim) (pv : PV) : PVClaim :=
  { pvc with volumePtr := some pv.name,
             anns := setAnn (setAnn pvc.anns annWasEverBound)
                       annBoundByController }

/-- C4: in the bind path of `SyncPVC` (matcher found a Volume for a
never-bound Claim with no volume pointer), the writes are ordered Volume
spec, Volume status (phase `Bound`), Claim spec (carrying was-ever-bound),
Claim status (phase `Bound`), and every failed commit returns immediately,
truncating the pass there. -/
theorem C4_bind_commit_order (ok : Nat → Bool) (env : Env) (pvc : PVClaim)
    (pv : PV)
    (hwab : hasAnn pvc.anns annWasEverBound = false)
    (hvp : pvc.volumePtr = none)
    (hfind : env.findAcceptablePV pvc = some pv) :
    hasAnn (bindC1 pvc pv).anns annWasEverBound = true ∧
    (ok 0 = false →
       SyncPVC ok env pvc = [Ev.commitPV (bindPV1 pvc pv) false]) ∧
    (ok 0 = true → ok 1 = false →
       SyncPVC ok env pvc =
         [Ev.commitPV (bindPV1 pvc pv) true,
          Ev.commitPVStatus { bindPV1 pvc pv with phase := Phase.Bound } false]) ∧
    (ok 0 = true → ok 1 = true → ok 2 = false →
       SyncPVC ok env pvc =
         [Ev.commitPV (bindPV1 pvc pv) true,
          Ev.commitPVStatus { bindPV1 pvc pv with phase := Phase.Bound } true,
          Ev.commitPVC (bindC1 pvc pv) false]) ∧
    (ok 0 = true → ok 1 = true → ok 2 = true →
       SyncPVC ok env pvc =
         [Ev.commitPV (bindPV1 pvc pv) true,
          Ev.commitPVStatus { bindPV1 pvc pv with phase := Phase.Bound } true,
          Ev.commitPVC (bindC1 pvc pv) true,
          Ev.commitPVCStatus { bindC1 pvc pv with phase := Phase.Bound } (ok 3)]) := by
  refine ⟨?_, ?_, ?_, ?_, ?_⟩
  · have hne : annWasEverBound ≠ annBoundByController := by decide
    simp [bindC1, hasAnn_setAnn_ne _ _ _ hne, hasAnn_setAnn_self]
  · intro h0
    simp [SyncPVC, hwab, hvp, hfind, bindPV1, h0]
  · intro h0 h1
    simp [SyncPVC, hwab, hvp, hfind, bindPV1, h0, h1]
  · intro h0 h1 h2
    simp [SyncPVC, hwab, hvp, hfind, bindPV1, bindC1, h0, h1, h2]
  · intro h0 h1 h2
    simp [SyncPVC, hwab, hvp, hfind, bindPV1, bindC1, h0, h1, h2]

/-- A fresh, never-bound Claim with no volume pointer. -/
def freshClaim : PVClaim :=
  { name := "cf", uid := 21, volumePtr := none, phase := Phase.Pending,
    anns := [] }

/-- An unclaimed, matchable Volume. -/
def freeVol : PV :=
  { name := "vf", uid := 22, claimPtr := none, phase := Phase.Available,
    reclaimPolicy := "Retain", anns := [] }

/-- An environment whose matcher returns `freeVol`. -/
def matchEnv : Env :=
  { getPV := fun _ => none, getPVC := fun _ => none,
    findAcceptablePV := fun _ => some freeVol,
    provisionerFound := false, deleterFound := fun _ => false,
    recyclerFound := fun _ => false }

/-- C4 witness: the all-success pass over a concrete fresh Claim performs
the four commits in order. -/
theorem C4_bind_commit_order_witness :
    hasAnn (bindC1 freshClaim freeVol).anns annWasEverBound = true ∧
    (true = false →
       SyncPVC allOk matchEnv freshClaim =
         [Ev.commitPV (bindPV1 freshClaim freeVol) false]) ∧
    (true = true → true = false →
       SyncPVC allOk matchEnv freshClaim =
         [Ev.commitPV (bindPV1 freshClaim freeVol) true,
          Ev.commitPVStatus { bindPV1 freshClaim freeVol with phase := Phase.Bound } false]) ∧
    (true = true → true = true → true = false →
       SyncPVC allOk matchEnv freshClaim =
         [Ev.commitPV (bindPV1 freshClaim freeVol) true,
          Ev.commitPVStatus { bindPV1 freshClaim freeVol with phase := Phase.Bound } true,
          Ev.commitPVC (bindC1 freshClaim freeVol) false]) ∧
    (true = true → true = true → true = true →
       SyncPVC allOk matchEnv freshClaim =
         [Ev.commitPV (bindPV1 freshClaim freeVol) true,
          Ev.commitPVStatus { bindPV1 freshClaim freeVol with phase := Phase.Bound } true,
          Ev.commitPVC (bindC1 freshClaim freeVol) true,
          Ev.commitPVCStatus { bindC1 freshClaim freeVol with phase := Phase.Bound } true]) :=
  C4_bind_commit_order allOk matchEnv freshClaim freeVol (by decide) rfl rfl

/-- C5: for a never-bound Claim whose volume pointer names an existing
unclaimed Volume and which itself carries no bound-by-controller marker,
the successful pass commits, in order: the Volume spec with a strong claim
pointer (the Claim's UID) and bound-by-controller set, the Volume status
`Bound`, the Claim spec with was-ever-bound set (and bound-by-controller
still absent), and the Claim status `Bound`. -/
theorem C5_user_prebind_claim_side (env : Env) (pvc : PVClaim) (n : String)
    (pv : PV)
    (hwab : hasAnn pvc.anns annWasEverBound = false)
    (hbbc : hasAnn pvc.anns annBoundByController = false)
    (hvp : pvc.volumePtr = some n)
    (hget : env.getPV n = some pv)
    (hcp : pv.claimPtr = none) :
    SyncPVC allOk env pvc =
      [Ev.commitPV { pv with claimPtr := some ⟨pvc.name, pvc.uid⟩,
                             anns := setAnn pv.anns annBoundByController } true,
       Ev.commitPVStatus { pv with claimPtr := some ⟨pvc.name, pvc.uid⟩,
                                   anns := setAnn pv.anns annBoundByController,
                                   phase := Phase.Bound } true,
       Ev.commitPVC { pvc with anns := setAnn pvc.anns annWasEverBound } true,
       Ev.commitPVCStatus { pvc with anns := setAnn pvc.anns annWasEverBound,
                                     phase := Phase.Bound } true] ∧
    hasAnn (setAnn pv.anns annBoundByController) annBoundByController = true ∧
    hasAnn (setAnn pvc.anns annWasEverBound) annWasEverBound = true ∧
    hasAnn (setAnn pvc.anns annWasEverBound) annBoundByController = false := by
  have hne : annBoundByController ≠ annWasEverBound := by decide
  refine ⟨?_, hasAnn_setAnn_self _ _, hasAnn_setAnn_self _ _, ?_⟩
  · simp [SyncPVC, hwab, hvp, hget, hcp, allOk]
  · rw [hasAnn_setAnn_ne _ _ _ hne]
    exact hbbc

/-- A Claim pre-bound by the user to `freeVol` (no controller markers). -/
def prebindClaim : PVClaim :=
  { name := "cp", uid := 31, volumePtr := some "vf", phase := Phase.Pending,
    anns := [] }

/-- An environment resolving the name "vf" to `freeVol`. -/
def prebindEnv : Env :=
  { getPV := fun n => if n = "vf" then some freeVol else none,
    getPVC := fun _ => none, findAcceptablePV := fun _ => none,
    provisionerFound := false, deleterFound := fun _ => false,
    recyclerFound := fun _ => false }

/-- C5 witness: the concrete pre-bound Claim reaches the terminal state of
scenario 3. -/
theorem C5_user_prebind_claim_side_witness :
    SyncPVC allOk prebindEnv prebindClaim =
      [Ev.commitPV { freeVol with claimPtr := some ⟨"cp", 31⟩,
                                  anns := setAnn freeVol.anns annBoundByController } true,
       Ev.commitPVStatus { freeVol with claimPtr := some ⟨"cp", 31⟩,
                                        anns := setAnn freeVol.anns annBoundByController,
                                        phase := Phase.Bound } true,
       Ev.commitPVC { prebindClaim with anns := setAnn prebindClaim.anns annWasEverBound } true,
       Ev.commitPVCStatus { prebindClaim with
                              anns := setAnn prebindClaim.anns annWasEverBound,
                              phase := Phase.Bound } true] ∧
    hasAnn (setAnn freeVol.anns annBoundByController) annBoundByController = true ∧
    hasAnn (setAnn prebindClaim.anns annWasEverBound) annWasEverBound = true ∧
    hasAnn (setAnn prebindClaim.anns annWasEverBound) annBoundByController = false :=
  C5_user_prebind_claim_side prebindEnv prebindClaim "vf" freeVol
    (by decide) (by decide) rfl rfl rfl

/-- C6: for a Volume whose strong claim pointer references an existing
Claim that is bound to a different Volume, `syncPV` with the
bound-by-controller marker set clears the claim pointer, commits the spec,
then commits status `Available`; without the marker it leaves the pointer
in place and only asserts status `Available`. -/
theorem C6_undo_controller_binding (ok : Nat → Bool) (env : Env) (pv : PV)
    (cp : ClaimRef) (c : PVClaim) (m : String)
    (hph : isPlaceholderPV pv = false)
    (hcp : pv.claimPtr = some cp)
    (hu : cp.uid ≠ 0)
    (hget : env.getPVC cp.name = some c)
    (hcu : c.uid = cp.uid)
    (hvp : c.volumePtr = some m)
    (hne : m ≠ pv.name) :
    (hasAnn pv.anns annBoundByController = true →
       syncPV ok env pv =
         Ev.commitPV { pv with claimPtr := none } (ok 0) ::
         (if ok 0 then
            [Ev.commitPVStatus { pv with claimPtr := none,
                                         phase := Phase.Available } (ok 1)]
          else [])) ∧
    (hasAnn pv.anns annBoundByController = false →
       syncPV ok env pv =
         [Ev.commitPVStatus { pv with phase := Phase.Available } (ok 0)]) := by
  constructor
  · intro hbbc
    simp [syncPV, upgradePVFrom12, hph, hcp, hu, hget, hcu, hvp, hne, hbbc]
  · intro hbbc
    simp [syncPV, upgradePVFrom12, hph, hcp, hu, hget, hcu, hvp, hne, hbbc]

/-- A Volume the controller bound to Claim "cx", which is bound elsewhere. -/
def staleVol : PV :=
  { name := "vs", uid := 41, claimPtr := some ⟨"cx", 42⟩, phase := Phase.Bound,
    reclaimPolicy := "Retain", anns := [(annBoundByController, "yes")] }

/-- The Claim "cx", bound to a different Volume "velse". -/
def elsewhereClaim : PVClaim :=
  { name := "cx", uid := 42, volumePtr := some "velse", phase := Phase.Bound,
    anns := [] }

/-- An environment resolving the name "cx" to `elsewhereClaim`. -/
def staleEnv : Env :=
  { getPV := fun _ => none,
    getPVC := fun n => if n = "cx" then some elsewhereClaim else none,
    findAcceptablePV := fun _ => none,
    provisionerFound := false, deleterFound := fun _ => false,
    recyclerFound := fun _ => false }

/-- C6 witness: the concrete controller-bound stale Volume is unbound (spec
commit clearing the pointer, then status `Available`). -/
theorem C6_undo_controller_binding_witness :
    (hasAnn staleVol.anns annBoundByController = true →
       syncPV allOk staleEnv staleVol =
         Ev.commitPV { staleVol with claimPtr := none } true ::
         (if true then
            [Ev.commitPVStatus { staleVol with claimPtr := none,
                                               phase := Phase.Available } true]
          else [])) ∧
    (hasAnn staleVol.anns annBoundByController = false →
       syncPV allOk staleEnv staleVol =
         [Ev.commitPVStatus { staleVol with phase := Phase.Available } true]) :=
  C6_undo_controller_binding allOk staleEnv staleVol ⟨"cx", 42⟩ elsewhereClaim
    "velse" (by decide) rfl (by decide) rfl rfl rfl (by decide)

/-- A Volume with no claim pointer whose stored phase is already Available. -/
def idleVol : PV :=
  { name := "v0", uid := 51, claimPtr := none, phase := Phase.Available,
    reclaimPolicy := "Retain", anns := [] }

/-- C1 counterexample: reconciling a Volume with a null claim pointer whose
stored phase is already `Available` — a state satisfying every invariant —
still performs a status commit, and that commit is not made because the
stored phase differs: the committed phase equals the stored one.  So one
call of `syncPV` on an invariant-satisfying object is not restricted to
no commits or status-differs commits. -/
theorem C1_counterexample :
    idleVol.phase = Phase.Available ∧
    syncPV allOk env0 idleVol = [Ev.commitPVStatus idleVol true] ∧
    syncPV allOk env0 idleVol ≠ [] := by
  refine ⟨rfl, rfl, ?_⟩
  intro h
  simp [syncPV, upgradePVFrom12, isPlaceholderPV, idleVol, hasAnn, lookupAnn] at h

/-- C1 amended: reconciling an object whose state already satisfies all the
invariants performs no commits on the steady bound paths (`SyncPVC` and
`syncPV` both commit status only when the stored phase differs from
`Bound`), but `syncPV` on a Volume with a null claim pointer always issues
exactly one status commit asserting `Available`, even when the stored phase
is already `Available`. -/
theorem C1_amended_idempotence (ok : Nat → Bool) (env : Env) :
    (∀ (pvc : PVClaim) (n : String) (pv : PV) (cp : ClaimRef),
       hasAnn pvc.anns annWasEverBound = true →
       pvc.volumePtr = some n →
       env.getPV n = some pv →
       pv.claimPtr = some cp →
       cp.uid = pvc.uid →
       pv.phase = Phase.Bound →
       pvc.phase = Phase.Bound →
       SyncPVC ok env pvc = []) ∧
    (∀ (pv : PV) (cp : ClaimRef) (c : PVClaim),
       isPlaceholderPV pv = false →
       pv.claimPtr = some cp →
       cp.uid ≠ 0 →
       env.getPVC cp.name = some c →
       c.uid = cp.uid →
       c.volumePtr = some pv.name →
       pv.phase = Phase.Bound →
       syncPV ok env pv = []) ∧
    (∀ (pv : PV),
       isPlaceholderPV pv = false →
       pv.claimPtr = none →
       syncPV ok env pv =
         [Ev.commitPVStatus { pv with phase := Phase.Available } (ok 0)]) := by
  refine ⟨?_, ?_, ?_⟩
  · intro pvc n pv cp hwab hvp hget hcp huid hpv hpc
    simp [SyncPVC, syncPVCBound, getPVOpt, hwab, hvp, hget, hcp, huid, hpv, hpc]
  · intro pv cp c hph hcp hu hget hcu hvp hpv
    simp [syncPV, upgradePVFrom12, hph, hcp, hu, hget, hcu, hvp, hpv]
  · intro pv hph hcp
    simp [syncPV, upgradePVFrom12, hph, hcp]

/-- A steadily bound Volume for the C1 witness. -/
def steadyVol : PV :=
  { name := "v1", uid := 3, claimPtr := some ⟨"c1", 7⟩, phase := Phase.Bound,
    reclaimPolicy := "Retain", anns := [(annBoundByController, "yes")] }

/-- The Claim steadily bound to `steadyVol`. -/
def steadyClaim : PVClaim :=
  { name := "c1", uid := 7, volumePtr := some "v1", phase := Phase.Bound,
    anns := [(annWasEverBound, "yes")] }

/-- The store holding the steady bound pair. -/
def steadyStore : Store := { pvs := [steadyVol], pvcs := [steadyClaim] }

/-- C1 amended witness: on the concrete steady bound pair neither
reconciler commits anything, and the concrete idle Volume gets its one
`Available` status commit. -/
theorem C1_amended_idempotence_witness :
    SyncPVC allOk (envOf steadyStore) steadyClaim = [] ∧
    syncPV allOk (envOf steadyStore) steadyVol = [] ∧
    syncPV allOk (envOf steadyStore) idleVol =
      [Ev.commitPVStatus { idleVol with phase := Phase.Available } true] :=
  ⟨(C1_amended_idempotence allOk (envOf steadyStore)).1 steadyClaim "v1"
     steadyVol ⟨"c1", 7⟩ (by decide) rfl (by decide) rfl rfl rfl rfl,
   (C1_amended_idempotence allOk (envOf steadyStore)).2.1 steadyVol ⟨"c1", 7⟩
     steadyClaim (by decide) rfl (by decide) (by decide) rfl rfl rfl,
   (C1_amended_idempotence allOk (envOf steadyStore)).2.2 idleVol
     (by decide) rfl⟩

/-- A Claim in terminal phase `Lost` that still carries its volume pointer. -/
def lostClaim : PVClaim :=
  { name := "c1", uid := 7, volumePtr := some "v1", phase := Phase.Lost,
    anns := [(annWasEverBound, "yes")] }

/-- A Volume named "v1" that exists again with a null claim pointer. -/
def freedVol : PV :=
  { name := "v1", uid := 3, claimPtr := none, phase := Phase.Available,
    reclaimPolicy := "Retain", anns := [] }

/-- The store where the Lost Claim coexists with the freed Volume. -/
def lostStore0 : Store := { pvs := [freedVol], pvcs := [lostClaim] }

/-- The store after one all-success `SyncPVC` pass over the Lost Claim. -/
def lostStore1 : Store :=
  applyEvs lostStore0 (SyncPVC allOk (envOf lostStore0) lostClaim)

/-- C2 counterexample: a Claim in phase `Lost` carrying a volume pointer to
a Volume that exists with a null claim pointer is re-bound by the
controller: the first `SyncPVC` pass commits the Volume's claim pointer
back to this Claim, and the next pass over the updated store commits the
Claim's phase back to `Bound` — refuting that no sequence of
reconciliations ever re-binds a Lost Claim or sets it back to `Bound`. -/
theorem C2_counterexample :
    lostClaim.phase = Phase.Lost ∧
    Ev.commitPV { freedVol with claimPtr := some ⟨"c1", 7⟩ } true ∈
      SyncPVC allOk (envOf lostStore0) lostClaim ∧
    SyncPVC allOk (envOf lostStore1) lostClaim =
      [Ev.commitPVCStatus { lostClaim with phase := Phase.Bound } true] := by
  refine ⟨rfl, ?_, ?_⟩
  · decide
  · decide

/-- C2 amended: `Lost` is not terminal in general.  For any established
Claim in phase `Lost` that still carries a volume pointer naming a Volume
that exists with a null claim pointer, `SyncPVC` re-binds: the pass writes
the Volume's claim pointer back to this Claim and marks the Volume `Bound`,
and a subsequent pass that observes the rewritten Volume commits the
Claim's phase back to `Bound`.  (A Lost Claim is left alone only while its
pointer is null or the referenced Volume is absent or UID-mismatched.) -/
theorem C2_amended_lost_rebound (env env2 : Env) (pvc : PVClaim) (n : String)
    (pv : PV)
    (hwab : hasAnn pvc.anns annWasEverBound = true)
    (hlost : pvc.phase = Phase.Lost)
    (hvp : pvc.volumePtr = some n)
    (hget : env.getPV n = some pv)
    (hcp : pv.claimPtr = none)
    (hget2 : env2.getPV n =
      some { pv with claimPtr := some ⟨pvc.name, pvc.uid⟩,
                     phase := Phase.Bound }) :
    SyncPVC allOk env pvc =
      [Ev.emitEvent fixMsg,
       Ev.commitPV { pv with claimPtr := some ⟨pvc.name, pvc.uid⟩ } true,
       Ev.commitPVStatus { pv with claimPtr := some ⟨pvc.name, pvc.uid⟩,
                                   phase := Phase.Bound } true] ∧
    SyncPVC allOk env2 pvc =
      [Ev.commitPVCStatus { pvc with phase := Phase.Bound } true] := by
  constructor
  · simp [SyncPVC, syncPVCBound, getPVOpt, hwab, hvp, hget, hcp, allOk]
  · simp [SyncPVC, syncPVCBound, getPVOpt, hwab, hvp, hget2, hlost, allOk]

/-- C2 amended witness: the concrete Lost Claim and freed Volume exhibit
the re-binding pass and the subsequent `Bound` status commit. -/
theorem C2_amended_lost_rebound_witness :
    SyncPVC allOk (envOf lostStore0) lostClaim =
      [Ev.emitEvent fixMsg,
       Ev.commitPV { freedVol with claimPtr := some ⟨"c1", 7⟩ } true,
       Ev.commitPVStatus { freedVol with claimPtr := some ⟨"c1", 7⟩,
                                         phase := Phase.Bound } true] ∧
    SyncPVC allOk (envOf lostStore1) lostClaim =
      [Ev.commitPVCStatus { lostClaim with phase := Phase.Bound } true] :=
  C2_amended_lost_rebound (envOf lostStore0) (envOf lostStore1) lostClaim "v1"
    freedVol (by decide) rfl rfl (by decide) rfl (by decide)

/-- A Volume strongly bound to Claim name "cr" under UID 13. -/
def recycledVol : PV :=
  { name := "vr", uid := 12, claimPtr := some ⟨"cr", 13⟩, phase := Phase.Bound,
    reclaimPolicy := "Retain", anns := [] }

/-- A fresh Claim re-created under the old name "cr" with a new UID. -/
def recycledClaim : PVClaim :=
  { name := "cr", uid := 14, volumePtr := none, phase := Phase.Pending,
    anns := [] }

/-- An environment resolving "cr" to the re-created Claim. -/
def recycledEnv : Env :=
  { getPV := fun _ => none,
    getPVC := fun n => if n = "cr" then some recycledClaim else none,
    findAcceptablePV := fun _ => none,
    provisionerFound := false, deleterFound := fun _ => false,
    recyclerFound := fun _ => false }

/-- C9 witness: a concrete name-recycled Claim (same name, different UID)
sends the Volume down the released path with no error log. -/
theorem C9_gone_claim_is_observation_witness :
    (syncPV allOk recycledEnv recycledVol).head? =
        some (Ev.commitPVStatus { recycledVol with phase := Phase.Released } true) ∧
    ∀ msg, Ev.logError msg ∉ syncPV allOk recycledEnv recycledVol :=
  C9_gone_claim_is_observation allOk recycledEnv recycledVol ⟨"cr", 13⟩
    (by decide) rfl (by decide)
    (Or.inr ⟨recycledClaim, rfl, by decide⟩)
